import Mathlib

/-!
Shallow embedding of the cycle-inference core of the obsidian-cycle-tracker
plugin (`src/data.ts`, class `DataProcessor`), together with theorems checking
the natural-language specification's claims against it.

Modelling conventions:
* A JavaScript `Date` at day granularity is an `Int`: the number of whole days
  since 1970-01-01 (`date.getTime()` is that number times 86400000).  All dates
  manipulated by the core are constructed at day granularity
  (`new Date(year, month, day)` or day-offset arithmetic), so every date
  difference is an integral number of days and
  `Math.abs(Math.floor((d2 - d1) / 86400000))` is `(d2 - d1).natAbs`.
* The `Map<string, DailySymptoms>` keyed by `formatDateKey(record.date)` is
  modelled by its list of values; `map.get(formatDateKey(date))` is a lookup of
  the first record whose `date` equals the query date (keys are distinct per
  calendar day, and each entry's key is derived from its own `date` field).
* `isPredictedPeriodDay` reads the ambient clock (`const today = new Date()`).
  The clock is made explicit: `today : Int` is threaded as an extra argument
  into `isPredictedPeriodDay` and `getCycleInfo`.
* JavaScript `Math.floor(x / y)` on non-negative numbers is `Nat` division;
  `Math.round(sum / len)` for positive integers `sum`, `len` is
  `(2 * sum + len) / (2 * len)` (floor), since `Math.round` rounds halves up
  and the double rounding error of `sum / len` is far below the distance from
  any representable half for the magnitudes involved.
  `Math.floor(L * 0.5)` is `L / 2` and `Math.floor(L * 0.6)` is `3 * L / 5`:
  for every cycle length `L` in range the IEEE product `L * 0.6` rounds to
  the value whose floor is `⌊3L/5⌋` (the product's error `≈ L·2⁻⁵⁵` is smaller
  than the distance from the nearest integer when `5 ∣ 3L`, and otherwise
  cannot cross an integer).
-/

namespace CycleTracker

/-- `daysBetween(date1, date2)` from `src/data.ts`:
`Math.abs(Math.floor((date2.getTime() - date1.getTime()) / 86400000))`.
On day-granularity dates the quotient is exact, so this is the absolute
day difference. -/
def daysBetween (date1 date2 : Int) : Nat :=
  (date2 - date1).natAbs

/-- Raw symptom data for one day (`interface DailySymptoms`). `none` models
TypeScript `null` ("not recorded"). -/
structure DailySymptoms where
  date : Int
  periodFlow : Option String
  discharge : Option String
  cramps : Option Bool
  bloating : Option Bool
  breastTenderness : Option Bool
  headaches : Option Bool
  bowelChanges : Option String
  mood : Option String
  energyLevels : Option String
  anxiety : Option String
  concentration : Option String
  sexDrive : Option String
  physicalActivity : Option String
  nutrition : Option String
  waterIntake : Option String
  alcoholConsumption : Option String
  medication : Option String
  sexualActivity : Option String
deriving DecidableEq, Repr

/-- `createEmptySymptom(date)` from `src/data.ts`. -/
def createEmptySymptom (date : Int) : DailySymptoms where
  date := date
  periodFlow := none
  discharge := none
  cramps := none
  bloating := none
  breastTenderness := none
  headaches := none
  bowelChanges := none
  mood := none
  energyLevels := none
  anxiety := none
  concentration := none
  sexDrive := none
  physicalActivity := none
  nutrition := none
  waterIntake := none
  alcoholConsumption := none
  medication := none
  sexualActivity := none

/-- A detected period cycle (`interface PeriodCycle`). `cycleLength = none`
models the absent optional field. -/
structure PeriodCycle where
  id : String
  startDate : Int
  endDate : Int
  periodDays : Nat
  cycleLength : Option Nat
deriving DecidableEq, Repr

/-- The phase enumeration of `CycleInfo.phase`. -/
inductive Phase where
  | menstrual
  | follicular
  | ovulation
  | luteal
deriving DecidableEq, Repr

/-- Computed cycle information for a date (`interface CycleInfo`). -/
structure CycleInfo where
  cycleDay : Nat
  cycle : PeriodCycle
  phase : Phase
  isActualPeriodDay : Bool
  isPredictedPeriodDay : Bool
  isFertileWindow : Bool
  isOvulationDay : Bool
deriving DecidableEq, Repr

/-- Main data container (`interface CycleData`); the symptom map is modelled
by its list of entries (see the header comment). -/
structure CycleData where
  symptoms : List DailySymptoms
  cycles : List PeriodCycle
  earliest : Int
  latest : Int
deriving DecidableEq, Repr

/-- JavaScript `String.prototype.toLowerCase`, restricted to its ASCII
action (the only case the flow comparisons exercise): lower each character. -/
def jsToLowerCase (s : String) : String :=
  String.mk (s.data.map Char.toLower)

/-- `isActualPeriodDay(symptoms?)` from `src/data.ts`:
`!!(symptoms?.periodFlow && symptoms.periodFlow.toLowerCase() !== 'none')`.
Note the JavaScript truthiness test on the flow string: the empty string is
falsy, so an empty flow value yields `false` before the `'none'` comparison
is reached. -/
def isActualPeriodDay (symptoms : Option DailySymptoms) : Bool :=
  match symptoms with
  | none => false
  | some s =>
    match s.periodFlow with
    | none => false
    | some f => if f = "" then false else decide (jsToLowerCase f ≠ "none")

/-- Civil-from-days conversion (proleptic Gregorian), used to render a day
index back into the `(year, month, day)` triple that the JavaScript `Date`
accessors `getFullYear/getMonth/getDate` return.  All intermediate division
operands are non-negative for the dates handled, where floor, truncating and
Euclidean division coincide. -/
def civilFromDays (z0 : Int) : Int × Int × Int :=
  let z := z0 + 719468
  let era := (if 0 ≤ z then z else z - 146096) / 146097
  let doe := z - era * 146097
  let yoe := (doe - doe / 1460 + doe / 36524 - doe / 146096) / 365
  let y := yoe + era * 400
  let doy := doe - (365 * yoe + yoe / 4 - yoe / 100)
  let mp := (5 * doy + 2) / 153
  let d := doy - (153 * mp + 2) / 5 + 1
  let m := if mp < 10 then mp + 3 else mp - 9
  (if m ≤ 2 then y + 1 else y, m, d)

/-- Days-from-civil conversion: the day index of a `(year, month, day)`
calendar date, matching `new Date(year, month - 1, day)` at day granularity.
Used to write concrete dates readably. -/
def daysFromCivil (y0 m d : Int) : Int :=
  let y := if m ≤ 2 then y0 - 1 else y0
  let era := (if 0 ≤ y then y else y - 399) / 400
  let yoe := y - era * 400
  let mp := if 2 < m then m - 3 else m + 9
  let doy := (153 * mp + 2) / 5 + d - 1
  let doe := yoe * 365 + yoe / 4 - yoe / 100 + doy
  era * 146097 + doe - 719468

/-- `padStart(2, '0')` on a rendered number. -/
def pad2 (n : Int) : String :=
  let s := toString n
  if s.length < 2 then "0" ++ s else s

/-- `formatDateKey(date)` from `src/data.ts`:
`` `${y}-${(m).padStart(2,'0')}-${d.padStart(2,'0')}` ``. -/
def formatDateKey (date : Int) : String :=
  let c := civilFromDays date
  toString c.1 ++ "-" ++ pad2 c.2.1 ++ "-" ++ pad2 c.2.2

/-- The grouping loop of `detectPeriodCycles` (`src/data.ts`): walks the
remaining sorted period dates carrying the current episode
(`currentCycleStart`, `currentCycleEnd`, `periodDays`) and the list of closed
cycles; ids are `cycle-<n>` with `n = cycles.length + 1` at push time. -/
def detectLoop : List Int → Int → Int → Nat → List PeriodCycle → List PeriodCycle
  | [], s, e, n, acc =>
    acc ++ [⟨"cycle-" ++ toString (acc.length + 1), s, e, n, none⟩]
  | d :: rest, s, e, n, acc =>
    if daysBetween e d ≤ 2 then
      detectLoop rest s d (n + 1) acc
    else
      detectLoop rest d d 1
        (acc ++ [⟨"cycle-" ++ toString (acc.length + 1), s, e, n, none⟩])

/-- `calculateCycleLengths(cycles)` from `src/data.ts`: for each adjacent
pair, store the start-to-start day gap on the earlier cycle exactly when it
lies in `[20, 45]`; the `else` branch leaves the field untouched (the loop
mutates only `cycleLength`, so the later cycle's `startDate` read here is
unaffected by its own later update). -/
def calculateCycleLengths : List PeriodCycle → List PeriodCycle
  | [] => []
  | [c] => [c]
  | c1 :: c2 :: rest =>
    (if 20 ≤ daysBetween c1.startDate c2.startDate ∧
        daysBetween c1.startDate c2.startDate ≤ 45 then
      { c1 with cycleLength := some (daysBetween c1.startDate c2.startDate) }
    else c1) :: calculateCycleLengths (c2 :: rest)

/-- `detectPeriodCycles(symptoms)` from `src/data.ts`: filter the records by
the actual-period-day predicate, sort their dates ascending, group greedily
with a 2-day merge tolerance, then compute the inter-cycle lengths. -/
def detectPeriodCycles (symptoms : List DailySymptoms) : List PeriodCycle :=
  match List.insertionSort (fun a b : Int => a ≤ b)
      ((symptoms.filter (fun s => isActualPeriodDay (some s))).map
        (fun s => s.date)) with
  | [] => []
  | d :: rest => calculateCycleLengths (detectLoop rest d d 1 [])

/-- `Math.round(sum / len)` for positive integers: floor of `sum/len + 1/2`. -/
def jsRound (sum len : Nat) : Nat :=
  (2 * sum + len) / (2 * len)

/-- `calculateAverageCycleLength(cycles)` from `src/data.ts`: rounded mean of
all known `cycleLength` values, defaulting to 28 when none are known. -/
def calculateAverageCycleLength (cycles : List PeriodCycle) : Nat :=
  let knownLengths := cycles.filterMap (fun c => c.cycleLength)
  if knownLengths = [] then 28
  else jsRound knownLengths.sum knownLengths.length

/-- `calculateLast3CyclesMean(cycles, excludeCurrentCycle)` from
`src/data.ts`.  The `excludeCurrentCycle` block in the source is a commented
no-op, so the function reduces to: take the cycles with a known length in
order (`filter` + later `map(c => c.cycleLength!)`, fused here into one
`filterMap`), keep the last 3 (`slice(-3)`), and return their rounded mean,
defaulting to 28 when there are none. -/
def calculateLast3CyclesMean (cycles : List PeriodCycle) : Nat :=
  let available := cycles.filterMap (fun c => c.cycleLength)
  let last3 := available.drop (available.length - 3)
  if last3 = [] then 28
  else jsRound last3.sum last3.length

/-- `getPredictedCycleLength(cycles, targetCycle)` from `src/data.ts`. -/
def getPredictedCycleLength (cycles : List PeriodCycle)
    (targetCycle : PeriodCycle) : Nat :=
  match targetCycle.cycleLength with
  | some l => l
  | none =>
    match cycles.getLast? with
    | some last =>
      if last.id = targetCycle.id then calculateLast3CyclesMean cycles
      else calculateAverageCycleLength cycles
    | none => calculateAverageCycleLength cycles

/-- `projectCycleForDate(cycles, date)` from `src/data.ts`: `null` on an empty
cycle list; otherwise sort the cycles by absolute start-date distance from the
query date (stable, as JavaScript's sort is), take the closest, offset its
start forward by `Math.floor(daysDiff / avgCycleLength)` whole average
lengths (`daysDiff` is the absolute gap, so the offset is never negative),
and synthesize a projected cycle. -/
def projectCycleForDate (cycles : List PeriodCycle) (date : Int) :
    Option PeriodCycle :=
  if cycles.isEmpty then none
  else
    let avgCycleLength := calculateAverageCycleLength cycles
    let sortedCycles :=
      List.insertionSort
        (fun a b : PeriodCycle =>
          (a.startDate - date).natAbs ≤ (b.startDate - date).natAbs) cycles
    sortedCycles.head?.map (fun closestCycle =>
      let daysDiff := daysBetween closestCycle.startDate date
      let cyclesAway := daysDiff / avgCycleLength
      let projectedStartDate :=
        closestCycle.startDate + ((cyclesAway * avgCycleLength : Nat) : Int)
      { id := "projected-" ++ formatDateKey projectedStartDate
        startDate := projectedStartDate
        endDate := projectedStartDate + ((closestCycle.periodDays : Int) - 1)
        periodDays := closestCycle.periodDays
        cycleLength := some avgCycleLength })

/-- `findCycleForDate(cycles, date)` from `src/data.ts`: first cycle whose
span `[startDate, startDate + predictedLength - 1]` contains the date,
falling back to projection. -/
def findCycleForDate (cycles : List PeriodCycle) (date : Int) :
    Option PeriodCycle :=
  match cycles.find? (fun cycle =>
      decide (cycle.startDate ≤ date ∧
        date ≤ cycle.startDate + ((getPredictedCycleLength cycles cycle : Int) - 1))) with
  | some cycle => some cycle
  | none => projectCycleForDate cycles date

/-- `calculateCycleDay(cycle, date)` from `src/data.ts`:
`daysBetween(cycle.startDate, date) + 1`. -/
def calculateCycleDay (cycle : PeriodCycle) (date : Int) : Nat :=
  daysBetween cycle.startDate date + 1

/-- `calculatePhase(cycle, cycleDay, allCycles)` from `src/data.ts`, on the
resolver path where `allCycles` is always supplied.  `Math.floor(L * 0.5)` is
`L / 2` and `Math.floor(L * 0.6)` is `3 * L / 5` (header comment). -/
def calculatePhase (cycle : PeriodCycle) (cycleDay : Nat)
    (allCycles : List PeriodCycle) : Phase :=
  let cycleLength := getPredictedCycleLength allCycles cycle
  if cycleDay ≤ cycle.periodDays then Phase.menstrual
  else if cycleDay ≤ cycleLength / 2 then Phase.follicular
  else if cycleDay ≤ 3 * cycleLength / 5 then Phase.ovulation
  else Phase.luteal

/-- `isPredictedPeriodDay(cycle, cycleDay, symptoms)` from `src/data.ts`,
with the ambient `const today = new Date()` made an explicit argument. -/
def isPredictedPeriodDay (cycle : PeriodCycle) (cycleDay : Nat)
    (symptoms : Option DailySymptoms) (today : Int) : Bool :=
  if isActualPeriodDay symptoms then false
  else
    let dateInQuestion := cycle.startDate + ((cycleDay : Int) - 1)
    if dateInQuestion ≤ today then false
    else decide (cycleDay ≤ cycle.periodDays)

/-- `getFirstRecordedPeriodDate(data)` from `src/data.ts`: start date of the
chronologically first cycle, `null` when there are no cycles. -/
def getFirstRecordedPeriodDate (cycles : List PeriodCycle) : Option Int :=
  (List.insertionSort (fun a b : PeriodCycle => a.startDate ≤ b.startDate)
      cycles).head?.map (fun c => c.startDate)

/-- `isFertileWindow(cycle, cycleDay, allCycles, date)` from `src/data.ts`,
on the resolver path where `allCycles` and `date` are always supplied (a
`Date` object is always truthy).  The window arithmetic is carried out over
`Int`, matching the JavaScript numbers (`ovulationDay` may be negative for
short lengths). -/
def isFertileWindow (cycle : PeriodCycle) (cycleDay : Nat)
    (allCycles : List PeriodCycle) (date : Int) : Bool :=
  let before : Bool :=
    match getFirstRecordedPeriodDate allCycles with
    | some firstPeriodDate => decide (date < firstPeriodDate)
    | none => false
  if before then false
  else
    let cycleLength := getPredictedCycleLength allCycles cycle
    let ovulationDay : Int := (cycleLength : Int) - 14
    decide (ovulationDay - 5 ≤ (cycleDay : Int) ∧ (cycleDay : Int) ≤ ovulationDay + 1)

/-- `isOvulationDay(cycle, cycleDay, allCycles, date)` from `src/data.ts`,
same conventions as `isFertileWindow`. -/
def isOvulationDay (cycle : PeriodCycle) (cycleDay : Nat)
    (allCycles : List PeriodCycle) (date : Int) : Bool :=
  let before : Bool :=
    match getFirstRecordedPeriodDate allCycles with
    | some firstPeriodDate => decide (date < firstPeriodDate)
    | none => false
  if before then false
  else
    let cycleLength := getPredictedCycleLength allCycles cycle
    let ovulationDay : Int := (cycleLength : Int) - 14
    decide ((cycleDay : Int) = ovulationDay)

/-- `getCycleInfo(data, date)` from `src/data.ts` — the resolver — with the
ambient clock passed explicitly as `today` (it feeds only
`isPredictedPeriodDay`).  The symptom-map lookup
`data.symptoms.get(formatDateKey(date))` is the first record with the query
date (header comment). -/
def getCycleInfo (data : CycleData) (date : Int) (today : Int) :
    Option CycleInfo :=
  match findCycleForDate data.cycles date with
  | none => none
  | some cycle =>
    let cycleDay := calculateCycleDay cycle date
    let symptoms := data.symptoms.find? (fun s => s.date = date)
    some
      { cycleDay := cycleDay
        cycle := cycle
        phase := calculatePhase cycle cycleDay data.cycles
        isActualPeriodDay := isActualPeriodDay symptoms
        isPredictedPeriodDay := isPredictedPeriodDay cycle cycleDay symptoms today
        isFertileWindow := isFertileWindow cycle cycleDay data.cycles date
        isOvulationDay := isOvulationDay cycle cycleDay data.cycles date }

/-! ### Spec-side helper definitions

These follow the specification's wording and are used on the right-hand side
of refinement statements comparing the code's behaviour to the spec. -/

/-- The spec's "the `cycleLength` values of the cycles that have a known
length", in chronological order. -/
def knownCycleLengths (cycles : List PeriodCycle) : List Nat :=
  cycles.filterMap (fun c => c.cycleLength)

/-- The last `n` entries of a list (the spec's "the `n` most recent"). -/
def lastN (n : Nat) (l : List Nat) : List Nat :=
  l.drop (l.length - n)

/-- The spec's "mean of the values, rounded to nearest integer; default 28
when there are none". -/
def specRoundedMean (l : List Nat) : Nat :=
  if l = [] then 28 else jsRound l.sum l.length

/-- The detection-relevant core of a cycle: everything except `cycleLength`
(which `calculateCycleLengths` fills in afterwards). -/
def stripDet (c : PeriodCycle) : Int × Int × Nat :=
  (c.startDate, c.endDate, c.periodDays)

/-- All fields of a `CycleInfo` except `isPredictedPeriodDay` (the only field
fed by the ambient clock). -/
def dropPredicted (i : CycleInfo) :
    Nat × PeriodCycle × Phase × Bool × Bool × Bool :=
  (i.cycleDay, i.cycle, i.phase, i.isActualPeriodDay, i.isFertileWindow,
    i.isOvulationDay)

/-! ### Concrete example data

Day indices: `daysFromCivil 2024 1 1 = 19723`, `daysFromCivil 2024 1 4 =
19726`, `daysFromCivil 2024 1 10 = 19732`, `daysFromCivil 2024 1 28 =
19750`, `daysFromCivil 2024 1 11 = 19733`. -/

/-- A daily record with the given period-flow value and no other data. -/
def flowRecord (d : Int) (flow : String) : DailySymptoms :=
  { createEmptySymptom d with periodFlow := some flow }

/-- Records with bleeding on 2024-01-01, 2024-01-02, 2024-01-04 and
2024-01-10 (listed out of order; one non-bleeding `"None"` record on
2024-01-06 is also present). -/
def exSymptoms3 : List DailySymptoms :=
  [flowRecord (daysFromCivil 2024 1 4) "medium",
   flowRecord (daysFromCivil 2024 1 1) "heavy",
   flowRecord (daysFromCivil 2024 1 6) "None",
   flowRecord (daysFromCivil 2024 1 10) "light",
   flowRecord (daysFromCivil 2024 1 2) "medium"]

/-- Bleeding on 2024-01-01 and 2024-01-28: cycle starts 27 days apart. -/
def exSymptoms27 : List DailySymptoms :=
  [flowRecord (daysFromCivil 2024 1 1) "medium",
   flowRecord (daysFromCivil 2024 1 28) "medium"]

/-- Bleeding on 2024-01-01 and 2024-01-11: cycle starts 10 days apart. -/
def exSymptoms10 : List DailySymptoms :=
  [flowRecord (daysFromCivil 2024 1 1) "medium",
   flowRecord (daysFromCivil 2024 1 11) "medium"]

/-- First cycle detected from `exSymptoms27`. -/
def exCycle27a : PeriodCycle := ⟨"cycle-1", 19723, 19723, 1, some 27⟩

/-- Second cycle detected from `exSymptoms27`. -/
def exCycle27b : PeriodCycle := ⟨"cycle-2", 19750, 19750, 1, none⟩

/-- First cycle detected from `exSymptoms10`. -/
def exCycle10a : PeriodCycle := ⟨"cycle-1", 19723, 19723, 1, none⟩

/-- Second cycle detected from `exSymptoms10`. -/
def exCycle10b : PeriodCycle := ⟨"cycle-2", 19733, 19733, 1, none⟩

/-- Six chronological cycles whose known lengths are `[28, 30, 26, 29, 31]`;
the sixth (current) cycle's length is not yet resolved. -/
def exHist6 : List PeriodCycle :=
  [⟨"cycle-1", 19723, 19727, 5, some 28⟩,
   ⟨"cycle-2", 19751, 19755, 5, some 30⟩,
   ⟨"cycle-3", 19781, 19785, 5, some 26⟩,
   ⟨"cycle-4", 19807, 19811, 5, some 29⟩,
   ⟨"cycle-5", 19836, 19840, 5, some 31⟩,
   ⟨"cycle-6", 19867, 19871, 5, none⟩]

/-- The current (sixth) cycle of `exHist6`. -/
def exCurrent6 : PeriodCycle := ⟨"cycle-6", 19867, 19871, 5, none⟩

/-- A past cycle with no recorded length, resolved against `exHist6`. -/
def exPastNoLength : PeriodCycle := ⟨"cycle-0", 19695, 19699, 5, none⟩

/-- A cycle with `periodDays = 5` and a known length of 28. -/
def exPhaseCycle : PeriodCycle := ⟨"cycle-1", 19723, 19727, 5, some 28⟩

/-- One cycle starting at day 0, no symptom records. -/
def exData8 : CycleData := ⟨[], [⟨"cycle-1", 0, 1, 2, none⟩], 0, 1⟩

/-- One three-day cycle starting 2024-01-01, with an actual `"spotting"`
record on 2024-01-01. -/
def exData7 : CycleData :=
  ⟨[flowRecord 19723 "spotting"], [⟨"cycle-1", 19723, 19725, 3, none⟩],
    19723, 19725⟩

/-- The resolver's answer on `exData7` for 2024-01-01 (clock at day 19800). -/
def exInfo7 : CycleInfo :=
  ⟨1, ⟨"cycle-1", 19723, 19725, 3, none⟩, Phase.menstrual, true, false,
    false, false⟩

/-- One three-day cycle starting 2024-01-01, no symptom records. -/
def exData10 : CycleData :=
  ⟨[], [⟨"cycle-1", 19723, 19725, 3, none⟩], 19723, 19725⟩

/-- The resolver's answer on `exData10` for day 19700 (23 days before the
first cycle's start; clock at day 19800): the projected owning cycle starts
after the query date, and the cycle day is the absolute distance plus one. -/
def exInfo10 : CycleInfo :=
  ⟨24, ⟨"projected-2024-01-01", 19723, 19725, 3, some 28⟩, Phase.luteal,
    false, false, false, false⟩

/-- A record whose period flow is the empty string. -/
def exEmptyFlow : DailySymptoms := flowRecord 19723 ""

/-! ### Theorems -/

/-- C3: cycle detection groups the ascending-sorted bleeding dates greedily
with a 2-day merge tolerance; over the bleeding dates 2024-01-01, 2024-01-02,
2024-01-04 and 2024-01-10 it yields exactly the two cycles
`[01-01..01-04]` with `periodDays = 3` and `[01-10..01-10]` with
`periodDays = 1`. -/
theorem detect_merge_tolerance_grouping :
    detectPeriodCycles exSymptoms3 =
      [⟨"cycle-1", daysFromCivil 2024 1 1, daysFromCivil 2024 1 4, 3, none⟩,
       ⟨"cycle-2", daysFromCivil 2024 1 10, daysFromCivil 2024 1 10, 1, none⟩] := by
  decide

/-- C2 (counterexample): a record whose `periodFlow` is the empty string has
a non-null flow value that is not case-insensitively `"none"`, yet
`isActualPeriodDay` returns `false` for it (the JavaScript truthiness test
rejects the empty string), refuting the claimed characterisation. -/
theorem actual_period_day_empty_flow_cex :
    exEmptyFlow.periodFlow = some "" ∧ jsToLowerCase "" ≠ "none" ∧
      isActualPeriodDay (some exEmptyFlow) = false := by
  refine ⟨rfl, by decide, rfl⟩

/-- C2 (amended): `isActualPeriodDay` returns `true` exactly when the
record's flow field is non-null, **non-empty**, and not case-insensitively
equal to `"none"`; in particular a `"None"` record (any case) is not an
actual period day, a `"spotting"` record is, and a missing record yields
`false`. -/
theorem actual_period_day_characterisation :
    (∀ s : Option DailySymptoms,
      isActualPeriodDay s = true ↔
        ∃ r f, s = some r ∧ r.periodFlow = some f ∧ f ≠ "" ∧
          jsToLowerCase f ≠ "none") ∧
    isActualPeriodDay none = false ∧
    isActualPeriodDay (some (flowRecord 19723 "None")) = false ∧
    isActualPeriodDay (some (flowRecord 19723 "NONE")) = false ∧
    isActualPeriodDay (some (flowRecord 19723 "spotting")) = true := by
  refine ⟨?_, rfl, by decide, by decide, by decide⟩
  intro s
  cases s with
  | none => simp [isActualPeriodDay]
  | some r =>
    cases hp : r.periodFlow with
    | none => simp [isActualPeriodDay, hp]
    | some f =>
      by_cases hf : f = ""
      · subst hf
        simp [isActualPeriodDay, hp]
      · simp only [isActualPeriodDay, hp, if_neg hf, decide_eq_true_eq]
        constructor
        · intro hl
          exact ⟨r, f, rfl, hp, hf, hl⟩
        · rintro ⟨r', f', hr, hpf, hne, hl⟩
          obtain rfl := Option.some.inj hr
          rw [hp] at hpf
          obtain rfl := Option.some.inj hpf
          exact hl

/-- C2 witness: the amended characterisation applied to the `"spotting"`
record. -/
theorem actual_period_day_characterisation_witness :
    isActualPeriodDay (some (flowRecord 19723 "spotting")) = true :=
  (actual_period_day_characterisation.1
      (some (flowRecord 19723 "spotting"))).mpr
    ⟨flowRecord 19723 "spotting", "spotting", rfl, rfl, by decide,
      by decide⟩

/-- C6: phase classification is the ordered-bucket function of cycle day
`d`, period length `P = cycle.periodDays` and predicted cycle length `L`:
`d ≤ P` gives menstrual, else `d ≤ ⌊0.5·L⌋` gives follicular, else
`d ≤ ⌊0.6·L⌋` gives ovulation, else luteal (the floors stated multiplicatively
as `2·d ≤ L` and `5·d ≤ 3·L`); for `P = 5`, `L = 28`: day 5 is menstrual,
day 6 follicular, day 15 ovulation, day 17 luteal. -/
theorem phase_ordered_buckets :
    (∀ (cycle : PeriodCycle) (cycleDay : Nat) (allCycles : List PeriodCycle),
      calculatePhase cycle cycleDay allCycles =
        if cycleDay ≤ cycle.periodDays then Phase.menstrual
        else if 2 * cycleDay ≤ getPredictedCycleLength allCycles cycle then
          Phase.follicular
        else if 5 * cycleDay ≤ 3 * getPredictedCycleLength allCycles cycle then
          Phase.ovulation
        else Phase.luteal) ∧
    calculatePhase exPhaseCycle 5 [exPhaseCycle] = Phase.menstrual ∧
    calculatePhase exPhaseCycle 6 [exPhaseCycle] = Phase.follicular ∧
    calculatePhase exPhaseCycle 15 [exPhaseCycle] = Phase.ovulation ∧
    calculatePhase exPhaseCycle 17 [exPhaseCycle] = Phase.luteal := by
  refine ⟨?_, by decide, by decide, by decide, by decide⟩
  intro cycle cycleDay allCycles
  have h2 : cycleDay ≤ getPredictedCycleLength allCycles cycle / 2 ↔
      2 * cycleDay ≤ getPredictedCycleLength allCycles cycle := by
    rw [Nat.le_div_iff_mul_le (by norm_num), Nat.mul_comm]
  have h5 : cycleDay ≤ 3 * getPredictedCycleLength allCycles cycle / 5 ↔
      5 * cycleDay ≤ 3 * getPredictedCycleLength allCycles cycle := by
    rw [Nat.le_div_iff_mul_le (by norm_num), Nat.mul_comm]
  simp only [calculatePhase, h2, h5]

/-- C8 (counterexample): the same `(cycles, symptoms, date)` triple resolved
under two different ambient clock values yields different `CycleInfo`
(the `isPredictedPeriodDay` field flips), so the resolver is not a function
of its three inputs alone. -/
theorem resolver_clock_dependence_cex :
    getCycleInfo exData8 0 (-5) ≠ getCycleInfo exData8 0 0 := by
  decide

/-- C8 (amended): the resolver is a pure, deterministic function of its
three inputs and the ambient current date; the current date influences only
the `isPredictedPeriodDay` field — every other field of the result is
determined by `(cycles, symptoms, date)` alone. -/
theorem resolver_deterministic_given_clock
    (data : CycleData) (date t1 t2 : Int) :
    (getCycleInfo data date t1).map dropPredicted =
      (getCycleInfo data date t2).map dropPredicted := by
  unfold getCycleInfo
  cases findCycleForDate data.cycles date with
  | none => rfl
  | some cycle => rfl

/-- C8 witness: determinism of the clock-independent fields at a concrete
input. -/
theorem resolver_deterministic_given_clock_witness :
    (getCycleInfo exData8 0 (-5)).map dropPredicted =
      (getCycleInfo exData8 0 0).map dropPredicted :=
  resolver_deterministic_given_clock exData8 0 (-5) 0

/-- C5: the length predictor returns `targetCycle.cycleLength` verbatim when
set; otherwise, when `targetCycle` is the last cycle (matched by id) it
returns the rounded mean of up to the 3 most recent known cycle lengths
(default 28), and for any other length-less cycle the rounded mean of all
known lengths (default 28); with known lengths `[28, 30, 26, 29, 31]` and an
unresolved sixth current cycle, the current cycle's predicted length is 29
and a past length-less cycle's predicted length is 29. -/
theorem length_predictor_spec :
    (∀ (cycles : List PeriodCycle) (target : PeriodCycle) (l : Nat),
      target.cycleLength = some l →
        getPredictedCycleLength cycles target = l) ∧
    (∀ (cycles : List PeriodCycle) (target last : PeriodCycle),
      target.cycleLength = none → cycles.getLast? = some last →
        last.id = target.id →
        getPredictedCycleLength cycles target =
          specRoundedMean (lastN 3 (knownCycleLengths cycles))) ∧
    (∀ (cycles : List PeriodCycle) (target : PeriodCycle),
      target.cycleLength = none →
      (∀ last, cycles.getLast? = some last → last.id ≠ target.id) →
        getPredictedCycleLength cycles target =
          specRoundedMean (knownCycleLengths cycles)) ∧
    getPredictedCycleLength exHist6 exCurrent6 = 29 ∧
    getPredictedCycleLength exHist6 exPastNoLength = 29 := by
  refine ⟨?_, ?_, ?_, by decide, by decide⟩
  · intro cycles target l hl
    simp [getPredictedCycleLength, hl]
  · intro cycles target last hnone hlast hid
    simp only [getPredictedCycleLength, hnone, hlast, hid, if_true]
    rfl
  · intro cycles target hnone hid
    cases hlast : cycles.getLast? with
    | none => simp only [getPredictedCycleLength, hnone, hlast]; rfl
    | some last =>
      simp only [getPredictedCycleLength, hnone, hlast,
        if_neg (hid last hlast)]
      rfl

/-- C5 witness: the verbatim branch applied to the first historical cycle of
`exHist6`, whose length 28 is known. -/
theorem length_predictor_spec_witness :
    getPredictedCycleLength exHist6 ⟨"cycle-1", 19723, 19727, 5, some 28⟩ = 28 :=
  length_predictor_spec.1 exHist6 ⟨"cycle-1", 19723, 19727, 5, some 28⟩ 28 rfl

/-- A failed merge test on an ordered pair of dates means the later date is
strictly later: `¬ daysBetween e d ≤ 2` with `e ≤ d` forces `e < d`. -/
theorem lt_of_merge_gap_exceeded {e d : Int} (hed : e ≤ d)
    (h : ¬ daysBetween e d ≤ 2) : e < d := by
  simp only [daysBetween] at h
  omega

/-- Invariant of the grouping loop of `detectPeriodCycles`: walking sorted
dates starting from an episode `(s, e, n)` with `s ≤ e ≤` every remaining
date, over an accumulator of well-formed, chained cycles all ending before
`s`, produces only cycles with `periodDays ≥ 1` and `startDate ≤ endDate`,
chained so that each ends strictly before the next starts. -/
theorem detectLoop_invariant :
    ∀ (dates : List Int) (s e : Int) (n : Nat) (acc : List PeriodCycle),
      List.Sorted (fun a b : Int => a ≤ b) (e :: dates) →
      s ≤ e → 1 ≤ n →
      (∀ c ∈ acc, 1 ≤ c.periodDays ∧ c.startDate ≤ c.endDate ∧
        c.endDate < s) →
      List.Chain' (fun a b => a.endDate < b.startDate) acc →
      (∀ c ∈ detectLoop dates s e n acc,
        1 ≤ c.periodDays ∧ c.startDate ≤ c.endDate) ∧
      List.Chain' (fun a b => a.endDate < b.startDate)
        (detectLoop dates s e n acc) := by
  intro dates
  induction dates with
  | nil =>
    intro s e n acc hsorted hse hn hacc hchain
    refine ⟨?_, ?_⟩
    · intro c hc
      simp only [detectLoop] at hc
      rcases List.mem_append.1 hc with h | h
      · exact ⟨(hacc c h).1, (hacc c h).2.1⟩
      · rw [List.mem_singleton] at h
        subst h
        exact ⟨hn, hse⟩
    · simp only [detectLoop]
      rw [List.chain'_append]
      refine ⟨hchain, List.chain'_singleton _, ?_⟩
      intro x hx y hy
      simp only [List.head?_cons, Option.mem_some_iff] at hy
      subst hy
      exact (hacc x (List.mem_of_mem_getLast? hx)).2.2
  | cons d rest ih =>
    intro s e n acc hsorted hse hn hacc hchain
    have hed : e ≤ d := (List.sorted_cons.1 hsorted).1 d (by simp)
    by_cases hgap : daysBetween e d ≤ 2
    · rw [detectLoop, if_pos hgap]
      exact ih s d (n + 1) acc hsorted.of_cons (le_trans hse hed)
        (by omega) hacc hchain
    · rw [detectLoop, if_neg hgap]
      have hlt : e < d := lt_of_merge_gap_exceeded hed hgap
      apply ih d d 1 _ hsorted.of_cons le_rfl le_rfl
      · intro c hc
        rcases List.mem_append.1 hc with h | h
        · obtain ⟨h1, h2, h3⟩ := hacc c h
          exact ⟨h1, h2, lt_trans h3 (lt_of_le_of_lt hse hlt)⟩
        · rw [List.mem_singleton] at h
          subst h
          exact ⟨hn, hse, hlt⟩
      · rw [List.chain'_append]
        refine ⟨hchain, List.chain'_singleton _, ?_⟩
        intro x hx y hy
        simp only [List.head?_cons, Option.mem_some_iff] at hy
        subst hy
        exact (hacc x (List.mem_of_mem_getLast? hx)).2.2

/-- A list of cycles chained by "ends before the next starts", each of which
starts no later than it ends, is chained by strictly increasing start
dates. -/
theorem chain_start_of_chain_end :
    ∀ (l : List PeriodCycle),
      (∀ c ∈ l, c.startDate ≤ c.endDate) →
      List.Chain' (fun a b => a.endDate < b.startDate) l →
      List.Chain' (fun a b => a.startDate < b.startDate) l := by
  intro l
  induction l with
  | nil => intro _ _; exact List.chain'_nil
  | cons a tl ih =>
    intro hmem hchain
    cases tl with
    | nil => exact List.chain'_singleton _
    | cons b tl2 =>
      rw [List.chain'_cons] at hchain ⊢
      refine ⟨lt_of_le_of_lt (hmem a (by simp)) hchain.1, ?_⟩
      exact ih (fun c hc => hmem c (List.mem_cons_of_mem _ hc)) hchain.2

/-- `calculateCycleLengths` only fills in `cycleLength`: the projection to
`(startDate, endDate, periodDays)` is untouched. -/
theorem calculateCycleLengths_strip :
    ∀ cs : List PeriodCycle,
      (calculateCycleLengths cs).map stripDet = cs.map stripDet := by
  intro cs
  induction cs with
  | nil => rfl
  | cons c1 tl ih =>
    cases tl with
    | nil => rfl
    | cons c2 rest =>
      simp only [calculateCycleLengths, List.map_cons]
      have h1 : stripDet
          (if 20 ≤ daysBetween c1.startDate c2.startDate ∧
              daysBetween c1.startDate c2.startDate ≤ 45 then
            { c1 with cycleLength := some (daysBetween c1.startDate c2.startDate) }
          else c1) = stripDet c1 := by
        split <;> rfl
      rw [h1]
      have ih' := ih
      simp only [List.map_cons] at ih'
      rw [ih']

/-- C9: every cycle array produced by detection is in strictly increasing
chronological order of `startDate`, adjacent cycles do not overlap
(`endDate` strictly before the next `startDate`), and every cycle has
`periodDays ≥ 1`. -/
theorem detection_invariants (symptoms : List DailySymptoms) :
    List.Chain' (fun a b => a.startDate < b.startDate)
      (detectPeriodCycles symptoms) ∧
    List.Chain' (fun a b => a.endDate < b.startDate)
      (detectPeriodCycles symptoms) ∧
    ∀ c ∈ detectPeriodCycles symptoms, 1 ≤ c.periodDays := by
  rcases hs : List.insertionSort (fun a b : Int => a ≤ b)
      ((symptoms.filter (fun s => isActualPeriodDay (some s))).map
        (fun s => s.date)) with _ | ⟨d, rest⟩
  · have hdet : detectPeriodCycles symptoms = [] := by
      rw [detectPeriodCycles, hs]
    rw [hdet]
    exact ⟨List.chain'_nil, List.chain'_nil, by simp⟩
  · have hdet : detectPeriodCycles symptoms =
        calculateCycleLengths (detectLoop rest d d 1 []) := by
      rw [detectPeriodCycles, hs]
    have hsorted :
        List.Sorted (fun a b : Int => a ≤ b) (d :: rest) := by
      rw [← hs]
      exact List.sorted_insertionSort _ _
    obtain ⟨hmem, hchain⟩ := detectLoop_invariant rest d d 1 [] hsorted
      le_rfl le_rfl (by simp) List.chain'_nil
    have hstrip := calculateCycleLengths_strip (detectLoop rest d d 1 [])
    have hmem' : ∀ c ∈ calculateCycleLengths (detectLoop rest d d 1 []),
        1 ≤ c.periodDays ∧ c.startDate ≤ c.endDate := by
      intro c hc
      have hmc : stripDet c ∈
          (calculateCycleLengths (detectLoop rest d d 1 [])).map stripDet :=
        List.mem_map_of_mem _ hc
      rw [hstrip] at hmc
      obtain ⟨c', hc', heq⟩ := List.mem_map.1 hmc
      obtain ⟨h1, h2⟩ := hmem c' hc'
      have e1 : c'.startDate = c.startDate := congrArg (fun p => p.1) heq
      have e2 : c'.endDate = c.endDate := congrArg (fun p => p.2.1) heq
      have e3 : c'.periodDays = c.periodDays := congrArg (fun p => p.2.2) heq
      rw [e3] at h1
      rw [e1, e2] at h2
      exact ⟨h1, h2⟩
    have hchain' : List.Chain' (fun a b => a.endDate < b.startDate)
        (calculateCycleLengths (detectLoop rest d d 1 [])) := by
      have h1 : List.Chain' (fun x y : Int × Int × Nat => x.2.1 < y.1)
          ((calculateCycleLengths (detectLoop rest d d 1 [])).map
            stripDet) := by
        rw [hstrip, List.chain'_map]
        exact hchain
      rw [List.chain'_map] at h1
      exact h1
    rw [hdet]
    exact ⟨chain_start_of_chain_end _ (fun c hc => (hmem' c hc).2) hchain',
      hchain', fun c hc => (hmem' c hc).1⟩

/-- C9 witness: the invariants instantiated on the concrete detection run of
`exSymptoms3`, extracting `periodDays ≥ 1` for its first detected cycle. -/
theorem detection_invariants_witness :
    1 ≤ (⟨"cycle-1", 19723, 19726, 3, none⟩ : PeriodCycle).periodDays :=
  (detection_invariants exSymptoms3).2.2
    ⟨"cycle-1", 19723, 19726, 3, none⟩ (by decide)

/-- Every cycle built by the grouping loop (over an accumulator of cycles
without `cycleLength`) has no `cycleLength` yet. -/
theorem detectLoop_all_none :
    ∀ (dates : List Int) (s e : Int) (n : Nat) (acc : List PeriodCycle),
      (∀ c ∈ acc, c.cycleLength = none) →
      ∀ c ∈ detectLoop dates s e n acc, c.cycleLength = none := by
  intro dates
  induction dates with
  | nil =>
    intro s e n acc hacc c hc
    simp only [detectLoop] at hc
    rcases List.mem_append.1 hc with h | h
    · exact hacc c h
    · rw [List.mem_singleton] at h
      subst h
      rfl
  | cons d rest ih =>
    intro s e n acc hacc c hc
    by_cases hgap : daysBetween e d ≤ 2
    · rw [detectLoop, if_pos hgap] at hc
      exact ih s d (n + 1) acc hacc c hc
    · rw [detectLoop, if_neg hgap] at hc
      refine ih d d 1 _ ?_ c hc
      intro c' hc'
      rcases List.mem_append.1 hc' with h | h
      · exact hacc c' h
      · rw [List.mem_singleton] at h
        subst h
        rfl

/-- `calculateCycleLengths` of a non-empty list is a non-empty list whose
head has the same start date as the input's head. -/
theorem calculateCycleLengths_cons_head (c : PeriodCycle)
    (l : List PeriodCycle) :
    ∃ c' l', calculateCycleLengths (c :: l) = c' :: l' ∧
      c'.startDate = c.startDate := by
  cases l with
  | nil => exact ⟨c, [], rfl, rfl⟩
  | cons c2 rest =>
    refine ⟨_, _, rfl, ?_⟩
    split <;> rfl

/-- On cycles that enter without a `cycleLength`, `calculateCycleLengths`
sets each cycle's `cycleLength` to the start-to-start gap to the following
cycle exactly when that gap lies in `[20, 45]`, and leaves it unset
otherwise. -/
theorem calculateCycleLengths_pairs :
    ∀ (cs : List PeriodCycle), (∀ c ∈ cs, c.cycleLength = none) →
      ∀ (i : Nat) (c c' : PeriodCycle),
        (calculateCycleLengths cs).get? i = some c →
        (calculateCycleLengths cs).get? (i + 1) = some c' →
        c.cycleLength =
          if 20 ≤ daysBetween c.startDate c'.startDate ∧
              daysBetween c.startDate c'.startDate ≤ 45 then
            some (daysBetween c.startDate c'.startDate)
          else none := by
  intro cs
  induction cs with
  | nil =>
    intro _ i c c' hc _
    simp [calculateCycleLengths] at hc
  | cons c1 tl ih =>
    intro hnone i c c' hc hc'
    cases tl with
    | nil =>
      simp [calculateCycleLengths, List.get?] at hc'
    | cons c2 rest =>
      cases i with
      | zero =>
        rw [show calculateCycleLengths (c1 :: c2 :: rest) =
            _ :: calculateCycleLengths (c2 :: rest) from rfl,
          List.get?_cons_zero] at hc
        obtain ⟨c2h, l', heq, hstart⟩ := calculateCycleLengths_cons_head c2 rest
        rw [show calculateCycleLengths (c1 :: c2 :: rest) =
            _ :: calculateCycleLengths (c2 :: rest) from rfl,
          List.get?_cons_succ, heq, List.get?_cons_zero] at hc'
        obtain rfl := Option.some.inj hc
        obtain rfl := Option.some.inj hc'
        rw [hstart]
        by_cases hband : 20 ≤ daysBetween c1.startDate c2.startDate ∧
            daysBetween c1.startDate c2.startDate ≤ 45
        · simp only [if_pos hband]
        · simp only [if_neg hband]
          exact hnone c1 (by simp)
      | succ j =>
        rw [show calculateCycleLengths (c1 :: c2 :: rest) =
            _ :: calculateCycleLengths (c2 :: rest) from rfl,
          List.get?_cons_succ] at hc hc'
        exact ih (fun c hc => hnone c (List.mem_cons_of_mem _ hc)) j c c' hc hc'

/-- On cycles that enter without a `cycleLength`, the last cycle leaves
`calculateCycleLengths` still without one. -/
theorem calculateCycleLengths_last_none :
    ∀ (cs : List PeriodCycle), (∀ c ∈ cs, c.cycleLength = none) →
      ∀ c, (calculateCycleLengths cs).getLast? = some c →
        c.cycleLength = none := by
  intro cs
  induction cs with
  | nil =>
    intro _ c hc
    simp [calculateCycleLengths] at hc
  | cons c1 tl ih =>
    intro hnone c hc
    cases tl with
    | nil =>
      simp only [calculateCycleLengths, List.getLast?_singleton] at hc
      obtain rfl := Option.some.inj hc
      exact hnone c1 (by simp)
    | cons c2 rest =>
      obtain ⟨c2h, l', heq, _⟩ := calculateCycleLengths_cons_head c2 rest
      rw [show calculateCycleLengths (c1 :: c2 :: rest) =
          _ :: calculateCycleLengths (c2 :: rest) from rfl, heq,
        List.getLast?_cons_cons, ← heq] at hc
      exact ih (fun c hc => hnone c (List.mem_cons_of_mem _ hc)) c hc

/-- C4: for every adjacent pair of detected cycles, the start-to-start day
gap is stored as the earlier cycle's `cycleLength` exactly when it lies in
the inclusive band `[20, 45]`, and is left unset otherwise; the last
detected cycle's `cycleLength` is always unset. -/
theorem plausibility_filter (symptoms : List DailySymptoms) :
    (∀ (i : Nat) (c c' : PeriodCycle),
      (detectPeriodCycles symptoms).get? i = some c →
      (detectPeriodCycles symptoms).get? (i + 1) = some c' →
      c.cycleLength =
        if 20 ≤ daysBetween c.startDate c'.startDate ∧
            daysBetween c.startDate c'.startDate ≤ 45 then
          some (daysBetween c.startDate c'.startDate)
        else none) ∧
    (∀ c, (detectPeriodCycles symptoms).getLast? = some c →
      c.cycleLength = none) := by
  rcases hs : List.insertionSort (fun a b : Int => a ≤ b)
      ((symptoms.filter (fun s => isActualPeriodDay (some s))).map
        (fun s => s.date)) with _ | ⟨d, rest⟩
  · have hdet : detectPeriodCycles symptoms = [] := by
      rw [detectPeriodCycles, hs]
    rw [hdet]
    constructor
    · intro i c c' hc _
      simp at hc
    · intro c hc
      simp at hc
  · have hdet : detectPeriodCycles symptoms =
        calculateCycleLengths (detectLoop rest d d 1 []) := by
      rw [detectPeriodCycles, hs]
    have hnone := detectLoop_all_none rest d d 1 [] (by simp)
    rw [hdet]
    exact ⟨fun i c c' => calculateCycleLengths_pairs _ hnone i c c',
      calculateCycleLengths_last_none _ hnone⟩

/-- C4 witness: two one-day cycles 27 days apart record `cycleLength = 27`
on the earlier cycle; two cycles 10 days apart leave it unset. -/
theorem plausibility_filter_witness :
    exCycle27a.cycleLength = some 27 ∧ exCycle10a.cycleLength = none := by
  have h27 := (plausibility_filter exSymptoms27).1 0 exCycle27a exCycle27b
    (by decide) (by decide)
  have h10 := (plausibility_filter exSymptoms10).1 0 exCycle10a exCycle10b
    (by decide) (by decide)
  rw [h27, h10]
  exact ⟨by decide, by decide⟩

/-- Projection never fails on a non-empty cycle list: sorting by distance
preserves non-emptiness, so a closest cycle always exists. -/
theorem projectCycleForDate_isSome (cycles : List PeriodCycle) (date : Int)
    (h : cycles ≠ []) : (projectCycleForDate cycles date).isSome := by
  rw [projectCycleForDate]
  rw [if_neg (by simpa [List.isEmpty_iff] using h)]
  have hlen : (List.insertionSort
      (fun a b : PeriodCycle =>
        (a.startDate - date).natAbs ≤ (b.startDate - date).natAbs)
      cycles).length = cycles.length :=
    (List.perm_insertionSort _ cycles).length_eq
  cases hsort : List.insertionSort
      (fun a b : PeriodCycle =>
        (a.startDate - date).natAbs ≤ (b.startDate - date).natAbs)
      cycles with
  | nil =>
    exfalso
    rw [hsort] at hlen
    exact h (List.length_eq_zero.1 hlen.symm)
  | cons a l =>
    rfl

/-- The cycle-locating step never fails on a non-empty cycle list: either
some cycle's span contains the date or projection supplies one. -/
theorem findCycleForDate_isSome (cycles : List PeriodCycle) (date : Int)
    (h : cycles ≠ []) : (findCycleForDate cycles date).isSome := by
  rw [findCycleForDate]
  cases hfind : cycles.find? (fun cycle =>
      decide (cycle.startDate ≤ date ∧
        date ≤ cycle.startDate +
          ((getPredictedCycleLength cycles cycle : Int) - 1))) with
  | some c => rfl
  | none => exact projectCycleForDate_isSome cycles date h

/-- C1: the resolver returns `null` exactly when the cycle array is empty;
for every non-empty cycle array and every query date — arbitrarily far in
the past or future — it returns a non-null `CycleInfo`. -/
theorem resolver_none_iff_no_cycles (data : CycleData) (date today : Int) :
    getCycleInfo data date today = none ↔ data.cycles = [] := by
  constructor
  · intro h
    by_contra hne
    have hs := findCycleForDate_isSome data.cycles date hne
    rw [getCycleInfo] at h
    cases hf : findCycleForDate data.cycles date with
    | none =>
      rw [hf] at hs
      simp at hs
    | some c =>
      rw [hf] at h
      simp at h
  · intro h
    rw [getCycleInfo, h]
    rfl

/-- C1 witness: the equivalence at a concrete non-empty input and a date
before all recorded data. -/
theorem resolver_none_iff_no_cycles_witness :
    getCycleInfo exData10 19700 19800 = none ↔ exData10.cycles = [] :=
  resolver_none_iff_no_cycles exData10 19700 19800

/-- C7: whenever the resolver returns a `CycleInfo` with
`isActualPeriodDay = true`, that `CycleInfo` has
`isPredictedPeriodDay = false` — a prediction is never shown over a real
observation. -/
theorem actual_overrides_predicted (data : CycleData) (date today : Int)
    (info : CycleInfo) (h : getCycleInfo data date today = some info)
    (ha : info.isActualPeriodDay = true) :
    info.isPredictedPeriodDay = false := by
  rw [getCycleInfo] at h
  cases hf : findCycleForDate data.cycles date with
  | none =>
    rw [hf] at h
    simp at h
  | some cycle =>
    rw [hf] at h
    obtain rfl := Option.some.inj h
    have ha' : isActualPeriodDay
        (data.symptoms.find? (fun s => s.date = date)) = true := ha
    show isPredictedPeriodDay cycle (calculateCycleDay cycle date)
      (data.symptoms.find? (fun s => s.date = date)) today = false
    rw [isPredictedPeriodDay, if_pos ha']

/-- C7 witness: on a day with an actual `"spotting"` record the resolver
reports `isActualPeriodDay = true` and `isPredictedPeriodDay = false`. -/
theorem actual_overrides_predicted_witness :
    getCycleInfo exData7 19723 19800 = some exInfo7 ∧
      exInfo7.isPredictedPeriodDay = false :=
  ⟨by decide,
    actual_overrides_predicted exData7 19723 19800 exInfo7 (by decide)
      (by decide)⟩

/-- C10: every `CycleInfo` the resolver returns has `cycleDay ≥ 1`, because
the day distance underlying it is an absolute value — even for query dates
strictly before the owning (projected) cycle's start. -/
theorem cycle_day_positive (data : CycleData) (date today : Int)
    (info : CycleInfo) (h : getCycleInfo data date today = some info) :
    1 ≤ info.cycleDay := by
  rw [getCycleInfo] at h
  cases hf : findCycleForDate data.cycles date with
  | none =>
    rw [hf] at h
    simp at h
  | some cycle =>
    rw [hf] at h
    obtain rfl := Option.some.inj h
    show 1 ≤ calculateCycleDay cycle date
    rw [calculateCycleDay]
    omega

/-- C10 witness: a query 23 days before the only cycle's start is owned by a
projected cycle starting after the query date, and still gets
`cycleDay = 24 ≥ 1`. -/
theorem cycle_day_positive_witness :
    1 ≤ exInfo10.cycleDay ∧ 19700 < exInfo10.cycle.startDate :=
  ⟨cycle_day_positive exData10 19700 19800 exInfo10 (by decide), by decide⟩

end CycleTracker
